import Mathlib

/-!
Verification of the query-resolution core of a data-analyst BI assistant.

The Python source is shallowly embedded: SQL text is modelled as `List Char`
(Unicode code points, with ASCII case mapping mirroring `str.upper`/`str.lower`
on the ASCII fragment actually exercised by the code), pandas data frames as a
column list plus a row list of cells, and every external collaborator (database
driver, LLM rectifier, embedding service, fuzzy-string library) as an explicit
function parameter.  Each embedded definition names the Python function it
transcribes.
-/

/-! ## ASCII string helpers (Python `str` operations used by the source) -/

/-- ASCII lower-case mapping of one character (the fragment of Python
`str.lower` exercised by the source, which manipulates SQL text). -/
def chLower (c : Char) : Char :=
  if 65 ≤ c.toNat ∧ c.toNat ≤ 90 then Char.ofNat (c.toNat + 32) else c

/-- ASCII upper-case mapping of one character (fragment of Python `str.upper`). -/
def chUpper (c : Char) : Char :=
  if 97 ≤ c.toNat ∧ c.toNat ≤ 122 then Char.ofNat (c.toNat - 32) else c

/-- Python `str.lower` on a string's character list. -/
def lowerL (l : List Char) : List Char := l.map chLower

/-- Python `str.upper` on a string's character list. -/
def upperL (l : List Char) : List Char := l.map chUpper

/-- Python whitespace characters stripped by `str.strip`. -/
def isPySpace (c : Char) : Bool :=
  c.toNat = 32 ∨ c.toNat = 9 ∨ c.toNat = 10 ∨ c.toNat = 13 ∨ c.toNat = 11 ∨ c.toNat = 12

/-- Python `str.strip` (whitespace removed from both ends). -/
def stripL (l : List Char) : List Char :=
  ((l.dropWhile isPySpace).reverse.dropWhile isPySpace).reverse

/-- Python substring test `pat in s`. -/
def listHasInfix (pat : List Char) : List Char → Bool
  | [] => pat.isEmpty
  | c :: rest => pat.isPrefixOf (c :: rest) || listHasInfix pat rest

/-- Worker for `replaceAll`; the fuel argument (initialised to the length of
the subject string) only discharges termination and is never exhausted. -/
def replaceGo (pat rep : List Char) : Nat → List Char → List Char
  | _, [] => []
  | 0, l => l
  | fuel + 1, c :: rest =>
    if pat ≠ [] ∧ pat.isPrefixOf (c :: rest) then
      rep ++ replaceGo pat rep fuel (List.drop (pat.length - 1) rest)
    else
      c :: replaceGo pat rep fuel rest

/-- Python `str.replace(pat, rep)`: every occurrence, leftmost first,
non-overlapping.  (The source never calls it with an empty pattern.) -/
def replaceAll (pat rep l : List Char) : List Char :=
  replaceGo pat rep l.length l

/-! ## Tabular results (pandas `DataFrame` as produced by the executors) -/

/-- One result cell: SQL NULL, an integer, or a text value.  These are the
only cell shapes the embedded control flow ever inspects (null/zero checks
and row counts). -/
inductive Cell where
  | null : Cell
  | intv : Int → Cell
  | strv : String → Cell
deriving DecidableEq, Repr

/-- A pandas data frame: column labels plus rows of cells. -/
structure DataFrame where
  cols : List String
  rows : List (List Cell)
deriving DecidableEq, Repr

/-- `pd.DataFrame()`, the empty frame returned on every failure path. -/
def emptyDF : DataFrame := ⟨[], []⟩

/-- A backend response to one issued statement: a result table or a raised
driver exception rendered as its message (`str(e)`). -/
inductive Resp where
  | ok : DataFrame → Resp
  | err : String → Resp
deriving DecidableEq, Repr

/-- The database driver, an external collaborator: maps each issued SQL text
to its response. -/
abbrev Backend := List Char → Resp

/-- Execution result as the helpers return it: a data frame on success or the
error string (Python returns `pd.DataFrame | str`). -/
inductive ExecOut where
  | table : DataFrame → ExecOut
  | err : String → ExecOut
deriving DecidableEq, Repr

/-! ## `DatabaseHelper` gate — `scripts/executor.py`

`proceed_with_sql` (executor.py lines 35-39) and the data-analyst
`SQLiteHelper._excute` (lines 72-84), which consults the gate before issuing
anything to the driver.  The second component of the result is the list of
statements actually issued to the backend. -/

/-- `DatabaseHelper.proceed_with_sql`:
`sql.strip().upper().startswith("SELECT") or sql.strip().upper().startswith("WITH")`. -/
def proceed_with_sql (sql : List Char) : Bool :=
  "SELECT".data.isPrefixOf (upperL (stripL sql)) ||
    "WITH".data.isPrefixOf (upperL (stripL sql))

/-- The fixed rejection message for non-SELECT/WITH statements. -/
def invalidSqlMsg : String :=
  "Error: Generated SQL not valid! Please retry with a different question."

/-- Data-analyst `SQLiteHelper._excute` (executor.py lines 72-84): gate on
`proceed_with_sql`, then `pd.read_sql(command, self.conn)` with any raised
exception formatted as `f"{e}"`.  Returns the result together with the trace
of statements issued to the driver. -/
def da_excute (backend : Backend) (command : List Char) : ExecOut × List (List Char) :=
  if proceed_with_sql command then
    match backend command with
    | .ok df => (.table df, [command])
    | .err e => (.err e, [command])
  else
    (.err invalidSqlMsg, [])

/-! ## Row-count / timeout guard — `scripts/query_db/pgsql_executor.py`

`get_sql_result` (lines 31-119).  The `ThreadPoolExecutor` wrapper only adds
the wall-clock timeout around `execute_sql`; the untimed data path transcribed
here is `execute_sql` itself plus the engine presence check.  The second
component of the result is the trace of statements issued to the engine. -/

/-- The counting wrapper `text(f"SELECT COUNT(*) FROM ({clean_sql}) as subquery")`
where `clean_sql = sql.replace(';', '')`. -/
def countQuery (sql : List Char) : List Char :=
  "SELECT COUNT(*) FROM (".data ++ sql.filter (fun c => c ≠ ';') ++ ") as subquery".data

/-- `result.scalar()` on the count response followed by the integer comparison:
first cell of the first row when it is an integer.  A frame of any other shape
makes the subsequent `num_record_thresh < num_rows` comparison raise `TypeError`
(a successful `COUNT(*)` always yields a single integer cell). -/
def scalarInt : DataFrame → Option Int
  | ⟨_, (Cell.intv n :: _) :: _⟩ => some n
  | _ => none

/-- Message raised when the scalar is absent or non-numeric; caught by the
generic handler (only the message text is abbreviated). -/
def scalarTypeErrMsg : String :=
  "TypeError: '<' not supported between the threshold and the count scalar"

/-- The `NumRecordsException` handler's message. -/
def numRecordsMsg (numRows : Int) : String :=
  s!"Number of data records is {numRows} which is more than the threshold. Rephrase the question by adding a filter criteria"

/-- `get_sql_result` (pgsql_executor.py lines 31-119), untimed data path:
issue the counting wrapper, compare the scalar against `num_record_thresh`,
and only below the threshold issue the original statement.  Returns
`(df, error_msg)` and the trace of issued statements. -/
def get_sql_result (thresh : Nat) (backend : Backend) (sql : List Char) :
    (DataFrame × String) × List (List Char) :=
  let sqlCnt := countQuery sql
  match backend sqlCnt with
  | .err e => ((emptyDF, e), [sqlCnt])
  | .ok cntDf =>
    match scalarInt cntDf with
    | none => ((emptyDF, scalarTypeErrMsg), [sqlCnt])
    | some numRows =>
      if (thresh : Int) < numRows then
        ((emptyDF, numRecordsMsg numRows), [sqlCnt])
      else
        match backend sql with
        | .ok df => ((df, ""), [sqlCnt, sql])
        | .err e => ((emptyDF, e), [sqlCnt, sql])

/-- A count response holding the single integer cell `n`, as a successful
`SELECT COUNT(*)` returns it. -/
def countDF (n : Int) : DataFrame := ⟨["count"], [[Cell.intv n]]⟩

/-- A driver that rejects every statement — the behaviour of PostgreSQL on a
counting wrapper built around a non-SELECT statement. -/
def rejectingBackend : Backend := fun _ => .err "syntax error at or near \"DROP\""

/-- A demonstration driver whose counting wrapper for `SELECT * FROM SALES`
reports five rows. -/
def demoCountBackend : Backend := fun q =>
  if q = countQuery "SELECT * FROM SALES".data then .ok (countDF 5)
  else .ok ⟨["a"], [[Cell.intv 1]]⟩

/-! ## Rectification loop — `querybot/scripts/sql/executor.py`

`run_sql` of `SQLiteHelper` (lines 163-181), `PostgreSQLHelper` (lines
354-379) and `RedshiftHelper` share one loop: execute, then while the result
is an error string and the correction budget is not exhausted, ask the
rectifier for a corrected statement and re-execute.  `self._excute` is the
oracle `ex`; `self.sql_rectifier.correct(self.database, question, command,
result, ...)` is the oracle `corr` (database kind and question are fixed for
one call and absorbed into it). -/

/-- The `while isinstance(result, str) and rectification_cnt < rectification_attempt`
loop; the fuel is the remaining correction budget.  Returns the final
`(result, command)` pair and the list of corrected statements executed. -/
def rectifyLoop (ex : String → ExecOut) (corr : String → String → String) :
    Nat → String → ExecOut → (ExecOut × String) × List String
  | 0, command, result => ((result, command), [])
  | fuel + 1, command, result =>
    match result with
    | .table df => ((.table df, command), [])
    | .err e =>
      let command2 := corr command e
      let r := rectifyLoop ex corr fuel command2 (ex command2)
      (r.1, command2 :: r.2)

/-- `run_sql(question, command)`: one initial execution followed by the
rectification loop when the budget is positive.  The second component is the
full list of executed statements, the initial one included. -/
def run_sql_with_rectification (ex : String → ExecOut) (corr : String → String → String)
    (attempts : Nat) (command : String) : (ExecOut × String) × List String :=
  let result := ex command
  if 0 < attempts then
    let r := rectifyLoop ex corr attempts command result
    (r.1, command :: r.2)
  else
    ((result, command), [command])

/-! ## Object-store adapter — `S3AthenaHelper.run_sql` (executor.py lines 821-865)

The adapter's backend state `σ` abstracts the set of external tables that
exist in Athena; `ex` executes one statement against a given state and
`recreate` is the drop-database-and-`create_athena_tables` step (lines
669-729), which the source performs exactly once when the first result is an
error containing `TABLE_NOT_FOUND`, before re-running the original command
once.  Statements executed afterwards are plain `SELECT`s and leave the
table state unchanged. -/

/-- The error class that triggers recreation. -/
def tnfPat : List Char := "TABLE_NOT_FOUND".data

/-- `isinstance(result, str) and "TABLE_NOT_FOUND" in result`. -/
def hasTNF : ExecOut → Bool
  | .err e => listHasInfix tnfPat e.data
  | .table _ => false

/-- `S3AthenaHelper.run_sql`: execute; on a `TABLE_NOT_FOUND` error drop and
recreate the external tables and re-run the original command once; then the
shared rectification loop.  Returns the final `(result, command)` pair, the
number of recreate steps performed, and the executed-statement trace. -/
def s3_run_sql {σ : Type} (ex : σ → String → ExecOut) (recreate : σ → σ)
    (corr : String → String → String) (attempts : Nat) (command : String) (s0 : σ) :
    (ExecOut × String) × Nat × List String :=
  let r0 := ex s0 command
  let s1 := if hasTNF r0 then recreate s0 else s0
  let r1 := if hasTNF r0 then ex (recreate s0) command else r0
  let recCount := if hasTNF r0 then 1 else 0
  let trace1 := if hasTNF r0 then [command, command] else [command]
  if 0 < attempts then
    let r := rectifyLoop (ex s1) corr attempts command r1
    (r.1, recCount, trace1 ++ r.2)
  else
    ((r1, command), recCount, trace1)

/-! ## Semantic cache — `scripts/cache_operations.py`

`similarity_search` (lines 273-290) orders the stored entries by pgvector
cosine distance to the incoming question's embedding and returns the top
`top_k`; `get_cached_query` (lines 324-356) probes with `top_k = 1` and
declares a hit only when the similarity of that single nearest neighbour
reaches the caller's threshold.  The similarity value `1 - (embedding <=>
question)` is computed by the external embedding service plus the vector
index and enters the model as the oracle `sim`. -/

/-- One row of the cache store. -/
structure CacheEntry where
  query : String
  question : String
  explText : String
  genQuestion : String

/-- `similarity_search(conn, embedding, 1)`: the entry with maximal cosine
similarity (`ORDER BY question_embedding <=> %s LIMIT 1`; ties broken
arbitrarily by the store, here towards the earlier row), paired with its
similarity, or nothing when the cache is empty. -/
def similarity_search_top1 (sim : CacheEntry → ℚ) : List CacheEntry → Option (CacheEntry × ℚ)
  | [] => none
  | e :: rest =>
    match similarity_search_top1 sim rest with
    | none => some (e, sim e)
    | some (b, sb) => if sb ≤ sim e then some (e, sim e) else some (b, sb)

/-- `get_cached_query`: return the stored SQL of the nearest neighbour when
its similarity reaches `cache_thresh`, otherwise `None` (also when the cache
is empty, by falling through the loop). -/
def get_cached_query (sim : CacheEntry → ℚ) (cacheThresh : ℚ)
    (cache : List CacheEntry) : Option String :=
  match similarity_search_top1 sim cache with
  | none => none
  | some (e, s) => if cacheThresh ≤ s then some e.query else none

/-- Demonstration cache contents. -/
def demoCache : List CacheEntry :=
  [⟨"SELECT SUM(AMOUNT) FROM SALES", "total sales", "adds up all sale amounts", "what is the sum of sales"⟩,
   ⟨"SELECT COUNT(*) FROM STORES", "store count", "counts the stores", "how many stores are there"⟩]

/-- Demonstration similarity oracle. -/
def demoSim : CacheEntry → ℚ :=
  fun e => if e.question = "total sales" then mkRat 19 20 else mkRat 2 5

/-- A demonstration result table. -/
def demoDF : DataFrame := ⟨["TOTAL"], [[Cell.intv 42]]⟩

/-- Demonstration executor: the initial statement fails with a syntax error,
the corrected one succeeds. -/
def demoEx : String → ExecOut := fun c =>
  if c = "SELEC * FROM SALES" then .err "syntax error at or near \"SELEC\""
  else if c = "SELECT * FROM SALES" then .table demoDF
  else .err "relation does not exist"

/-- Demonstration rectifier: always proposes the fixed statement. -/
def demoCorr : String → String → String := fun _ _ => "SELECT * FROM SALES"

/-- Demonstration Athena executor over a two-valued table state: before
recreation every query fails with a `TABLE_NOT_FOUND` error, afterwards it
succeeds. -/
def demoAthenaEx : Bool → String → ExecOut := fun tablesExist _ =>
  if tablesExist then .table demoDF
  else .err "TABLE_NOT_FOUND: line 1:15: Table 'awsdatacatalog.db.sales' does not exist"

/-! ## Value normalisation — `scripts/query_db/postprocessor.py`

`run_normalization_process` (lines 235-293) decides from the execution result
whether filter literals should be repaired; `normalize_values` (lines 160-231)
performs the fuzzy replacement.  External pieces enter as oracles: the regex
component extraction `extract_tab_components` (`extractComps`), the distinct
values of a column obtained through `get_sql_result2` (`distinct`, keyed by
table and column), the `fuzzywuzzy` scorer `fuzz.token_set_ratio` (`scorer`),
and the re-execution dispatch (`reexec`, which is `get_sql_result` for
relational backends and `get_sql_from_athena` for the object store). -/

/-- One `(table, column, literal)` filter component extracted from the SQL. -/
structure TabComp where
  table : List Char
  col : List Char
  filterVal : List Char
deriving DecidableEq, Repr

/-- `escape_sql_string` (postprocessor.py lines 36-62): the chain of
`str.replace` calls in the source's dictionary order. -/
def escape_sql_string (v : List Char) : List Char :=
  let v := replaceAll ['\''] ['\'', '\''] v
  let v := replaceAll ['\\'] ['\\', '\\'] v
  let v := replaceAll ['\n'] ['\\', 'n'] v
  let v := replaceAll ['\r'] ['\\', 'r'] v
  let v := replaceAll ['\t'] ['\\', 't'] v
  let v := replaceAll [Char.ofNat 8] ['\\', 'b'] v
  let v := replaceAll [Char.ofNat 12] ['\\', 'f'] v
  let v := replaceAll ['"'] ['"', '"'] v
  let v := replaceAll ['%'] ['\\', '%'] v
  let v := replaceAll ['_'] ['\\', '_'] v
  v

/-- `process.extract(filter_val, choices, scorer=fuzz.token_set_ratio)` sorts
the choices by score, best first (stable, earlier choice preferred on ties);
the source only ever reads the head of the above-threshold part of that list,
which is a maximal-score choice.  `bestMatch` returns that head directly. -/
def bestMatch (scorer : List Char → List Char → Nat) (fv : List Char) :
    List (List Char) → Option (List Char × Nat)
  | [] => none
  | c :: rest =>
    match bestMatch scorer fv rest with
    | none => some (c, scorer fv c)
    | some (b, sb) => if sb ≤ scorer fv c then some (c, scorer fv c) else some (b, sb)

/-- The loop state of `normalize_values`: the accumulators
`filter_vals`, `top_vals`, `scores`, `sql_new`, `value_replacements`. -/
structure NormState where
  filterVals : List (List Char)
  topVals : List (List (List Char))
  scores : List Nat
  sqlNew : List Char
  valueReplacements : List String
deriving DecidableEq, Repr

/-- The `f"Replaced {filter_val} with {filter_act_escaped}"` message. -/
def replacedMsg (fv esc : List Char) : String :=
  let fvs := String.mk fv
  let escs := String.mk esc
  s!"Replaced {fvs} with {escs}"

/-- One iteration of the `for tab_grp in tab_comps` loop of `normalize_values`:
fetch the column's distinct values, fuzzy-match the literal, and when the best
match scores strictly above 80 substitute it (escaped) into the SQL and record
the replacement; otherwise leave the state untouched.  (The source's extra
condition `out != filter_val` compares a pair with a string and is always
true.) -/
def normalizeStep (scorer : List Char → List Char → Nat)
    (distinct : List Char → List Char → List (List Char))
    (st : NormState) (comp : TabComp) : NormState :=
  match bestMatch scorer comp.filterVal (distinct comp.table comp.col) with
  | some (filterAct, score) =>
    if 80 < score then
      ⟨st.filterVals ++ [comp.filterVal], st.topVals ++ [[filterAct]],
       st.scores ++ [score],
       replaceAll comp.filterVal (escape_sql_string filterAct) st.sqlNew,
       st.valueReplacements ++ [replacedMsg comp.filterVal (escape_sql_string filterAct)]⟩
    else st
  | none => st

/-- The numbered `"Tried the following replacements -"` list. -/
def joinReplacements (msgs : List String) : String :=
  "Tried the following replacements -\n" ++
    String.intercalate "\n"
      (msgs.enum.map (fun p => let i := p.1; let m := p.2; s!"    {i + 1}. {m}"))

/-- The 5-tuple returned by `normalize_values`. -/
structure NormOut where
  filterVals : List (List Char)
  topVals : List (List (List Char))
  scores : List Nat
  sqlNew : List Char
  replacementMessage : Option String
deriving DecidableEq, Repr

/-- `normalize_values(tab_comps, sql, extractor)` (postprocessor.py lines
160-231). -/
def normalize_values (scorer : List Char → List Char → Nat)
    (distinct : List Char → List Char → List (List Char))
    (tabComps : List TabComp) (sql : List Char) : NormOut :=
  let st := tabComps.foldl (normalizeStep scorer distinct) ⟨[], [], [], sql, []⟩
  ⟨st.filterVals, st.topVals, st.scores, st.sqlNew,
    if st.valueReplacements = [] then none
    else some (joinReplacements st.valueReplacements)⟩

/-- `None in result.values` over the embedded frame. -/
def hasNullCell (df : DataFrame) : Bool :=
  df.rows.any (fun r => r.any (fun c => c == Cell.null))

/-- `0 in result.values` over the embedded frame. -/
def hasZeroCell (df : DataFrame) : Bool :=
  df.rows.any (fun r => r.any (fun c => c == Cell.intv 0))

/-- The normalisation trigger of `run_normalization_process`:
`result.shape[0] == 0 or (result.shape[0] == 1 and (None in result.values or 0 in result.values))`. -/
def normTrigger (df : DataFrame) : Bool :=
  df.rows.length == 0 || (df.rows.length == 1 && (hasNullCell df || hasZeroCell df))

/-- Python `repr` of a string value (the source's values carry no quotes). -/
def pyRepr (v : List Char) : String := "'" ++ String.mk v ++ "'"

/-- Python `str` of a list of strings, as an f-string renders it. -/
def pyReprList (vs : List (List Char)) : String :=
  "[" ++ String.intercalate ", " (vs.map pyRepr) ++ "]"

/-- Python `str` of a list of lists of strings. -/
def pyReprListList (vss : List (List (List Char))) : String :=
  "[" ++ String.intercalate ", " (vss.map pyReprList) ++ "]"

/-- Suggestion when no filter components could be extracted. -/
def noFilterMsg : String :=
  "Normalization could not be performed as no filter conditions were found in the query."

/-- Suggestion when no fuzzy match cleared the threshold. -/
def noSimilarMsg : String :=
  "No similar values found in the database. Try rephrasing the query with different entities"

/-- Suggestion when the rewritten SQL still returned nothing. -/
def noRecordsTriedMsg (filterVals : List (List Char))
    (topVals : List (List (List Char))) : String :=
  let ov := pyReprList filterVals
  let tv := pyReprListList topVals
  s!"No records exist even with suggested replacements. Original values: {ov}, Tried with: {tv}"

/-- Suggestion of the (unreachable in the source) empty-`top_vals` branch. -/
def noRecordsPlainMsg : String :=
  "No records exist. Try to rephrase the query with different entities"

/-- The quintuple `(sql, result, error, suggestion, replacement_message)`
returned by `run_normalization_process`; the last component is `None` or a
string in Python, hence an `Option`. -/
structure NormResult where
  sql : List Char
  result : DataFrame
  error : String
  suggestion : String
  replacementMessage : Option String
deriving DecidableEq, Repr

/-- `run_normalization_process(sql, result, extractor)` (postprocessor.py
lines 235-293).  The `except` wrapper around re-execution is dead in the
source (`get_sql_result` returns instead of raising) and is not modelled. -/
def run_normalization_process (scorer : List Char → List Char → Nat)
    (distinct : List Char → List Char → List (List Char))
    (extractComps : List Char → List TabComp)
    (reexec : List Char → DataFrame × String)
    (sql : List Char) (result : DataFrame) : NormResult :=
  if normTrigger result then
    let tabComps := extractComps sql
    if tabComps.isEmpty then
      ⟨sql, result, "", noFilterMsg, some ""⟩
    else
      let nv := normalize_values scorer distinct tabComps sql
      if 0 < nv.scores.length then
        let rr := reexec nv.sqlNew
        if 0 < rr.1.rows.length then
          ⟨nv.sqlNew, rr.1, "", "", nv.replacementMessage⟩
        else
          if 0 < nv.topVals.length then
            ⟨sql, emptyDF, "", noRecordsTriedMsg nv.filterVals nv.topVals,
              nv.replacementMessage⟩
          else
            ⟨sql, emptyDF, "", noRecordsPlainMsg, nv.replacementMessage⟩
      else
        ⟨sql, result, "", noSimilarMsg, nv.replacementMessage⟩
  else
    ⟨sql, result, "", "", some ""⟩

/-! ## Identifier quoting — `PostgreSQLHelper.preprocess_sql`
(data-analyst executor.py lines 120-142) and `RedshiftHelper.preprocess_sql`
(querybot executor.py lines 539-561), two identical copies: lower-case the
whole statement, quote bare `id` tokens, then upper-case the whole
statement.  `_excute` sends the preprocessed statement, never the caller's
one, to the driver. -/

/-- The `possible_cases` pattern list, in source order. -/
def idCases : List (List Char) :=
  [" id ".data, ".id ".data, " id,".data, ",id ".data, ".id,".data, ",id)".data,
   " id)".data, ".id)".data, "(id ".data, "(id,".data, "(id)".data, " id\n".data,
   "(id\n".data, ",id\n".data]

/-- `c.replace("id", '"id"')` for one pattern. -/
def quoteCase (c : List Char) : List Char := replaceAll "id".data "\"id\"".data c

/-- The `for c in possible_cases` loop: replace each occurring pattern with
its quoted form. -/
def applyIdCases (sql : List Char) : List Char :=
  idCases.foldl (fun s c => if listHasInfix c s then replaceAll c (quoteCase c) s else s) sql

/-- `preprocess_sql`: `sql.lower()`, the quoting loop, then `.upper()`. -/
def preprocess_sql (sql : List Char) : List Char :=
  upperL (applyIdCases (lowerL sql))

/-- `PostgreSQLHelper._excute` / `RedshiftHelper._excute`: preprocess, gate on
`proceed_with_sql`, and issue the preprocessed statement (the Decimal-to-float
post-conversion of result cells is outside the embedded cell model).  The
second component is the trace of statements sent to the driver. -/
def pg_excute (backend : Backend) (command : List Char) : ExecOut × List (List Char) :=
  let command2 := preprocess_sql command
  if proceed_with_sql command2 then
    match backend command2 with
    | .ok df => (.table df, [command2])
    | .err e => (.err e, [command2])
  else
    (.err invalidSqlMsg, [])

/-! ### Demonstration data for the normalisation and preprocessing modules -/

/-- A one-row result whose single cell is zero — the degenerate shape that
triggers normalisation. -/
def demoOrigResult : DataFrame := ⟨["count"], [[Cell.intv 0]]⟩

/-- The SQL being normalised in the demonstrations. -/
def demoNormSql : List Char := "SELECT COUNT(*) FROM SALES WHERE STORE = 'store1'".data

/-- The single extracted filter component of the demonstrations. -/
def demoComp : TabComp := ⟨"SALES".data, "STORE".data, "store1".data⟩

/-- Extraction oracle returning that single component. -/
def demoExtract : List Char → List TabComp := fun _ => [demoComp]

/-- Distinct-values oracle: the store column's one actual value. -/
def demoDistinct : List Char → List Char → List (List Char) := fun _ _ => ["Store1".data]

/-- A fuzzy scorer valuing every comparison at 100. -/
def demoScorer100 : List Char → List Char → Nat := fun _ _ => 100

/-- A fuzzy scorer valuing every comparison at exactly 80. -/
def demoScorer80 : List Char → List Char → Nat := fun _ _ => 80

/-- A re-execution oracle that still finds nothing. -/
def demoEmptyReexec : List Char → DataFrame × String := fun _ => (emptyDF, "")

/-! ## Theorems -/

/-- The count response carries its scalar. -/
theorem scalarInt_countDF (n : Int) : scalarInt (countDF n) = some n := rfl

/-- Whatever the backend and statement, `get_sql_result` issues the counting
wrapper first. -/
theorem get_sql_result_counts_first (thresh : Nat) (backend : Backend) (sql : List Char) :
    (get_sql_result thresh backend sql).2.head? = some (countQuery sql) := by
  unfold get_sql_result
  cases hb : backend (countQuery sql) with
  | ok cntDf =>
    cases hs : scalarInt cntDf with
    | none => simp [hb, hs]
    | some numRows =>
      by_cases hlt : (thresh : Int) < numRows
      · simp [hb, hs, hlt]
      · cases hm : backend sql <;> simp [hb, hs, hlt, hm]
  | err e => simp [hb]

/-- C1 (counterexample): for the non-SELECT statement `DROP TABLE T`, the
row-count/timeout guard `get_sql_result` does contact the backend — it issues
the counting wrapper built around the statement — and the failure it returns
is the driver's error, not the invalid-statement rejection.  So the operation
holding the counting wrapper performs a backend call on non-SELECT input,
contrary to the claim. -/
theorem guard_counting_issued_for_nonselect :
    proceed_with_sql "DROP TABLE T".data = false ∧
    (get_sql_result 100 rejectingBackend "DROP TABLE T".data).2 =
      [countQuery "DROP TABLE T".data] ∧
    (get_sql_result 100 rejectingBackend "DROP TABLE T".data).2 ≠ [] ∧
    (get_sql_result 100 rejectingBackend "DROP TABLE T".data).1.2 ≠ invalidSqlMsg :=
  ⟨by decide, rfl, by decide, by decide⟩

/-- C1 (amended): the SELECT/WITH safety gate lives in the `DatabaseHelper`
executors: for every SQL string that, after trimming whitespace and ignoring
case, starts with neither SELECT nor WITH, `_excute` returns the
invalid-statement failure and issues nothing to the backend.  The counting
guard `get_sql_result` itself applies no such gate: it always issues the
counting wrapper as its first backend call. -/
theorem invalid_statement_gate (backend : Backend) (thresh : Nat) (sql : List Char)
    (h : proceed_with_sql sql = false) :
    da_excute backend sql = (.err invalidSqlMsg, []) ∧
    (get_sql_result thresh backend sql).2.head? = some (countQuery sql) :=
  ⟨by simp [da_excute, h], get_sql_result_counts_first thresh backend sql⟩

/-- C1 witness: the gate and the counting-first behaviour at `DROP TABLE T`. -/
theorem invalid_statement_gate_witness :
    da_excute rejectingBackend "DROP TABLE T".data = (.err invalidSqlMsg, []) ∧
    (get_sql_result 100 rejectingBackend "DROP TABLE T".data).2.head? =
      some (countQuery "DROP TABLE T".data) :=
  invalid_statement_gate rejectingBackend 100 "DROP TABLE T".data (by decide)

/-- C2: when the counting wrapper reports `N` rows and `N` exceeds the
threshold `T`, `get_sql_result` returns the empty frame with the
record-threshold failure message, and the only statement ever issued to the
backend is the counting wrapper — the full statement is never executed. -/
theorem row_threshold_guard (thresh : Nat) (backend : Backend) (sql : List Char) (n : Int)
    (hcnt : backend (countQuery sql) = .ok (countDF n))
    (hgt : (thresh : Int) < n) :
    get_sql_result thresh backend sql = ((emptyDF, numRecordsMsg n), [countQuery sql]) := by
  unfold get_sql_result
  simp [hcnt, scalarInt_countDF, hgt]

/-- C2 witness: threshold 2, a backend counting 5 rows. -/
theorem row_threshold_guard_witness :
    (2 : Int) < 5 ∧
    get_sql_result 2 demoCountBackend "SELECT * FROM SALES".data =
      ((emptyDF, numRecordsMsg 5), [countQuery "SELECT * FROM SALES".data]) :=
  ⟨by decide,
    row_threshold_guard 2 demoCountBackend "SELECT * FROM SALES".data 5 (by decide) (by decide)⟩

/-- The rectification loop performs at most `fuel` corrected executions. -/
theorem rectifyLoop_len (ex : String → ExecOut) (corr : String → String → String) :
    ∀ (fuel : Nat) (cmd : String) (res : ExecOut),
      (rectifyLoop ex corr fuel cmd res).2.length ≤ fuel := by
  intro fuel
  induction fuel with
  | zero => intro cmd res; simp [rectifyLoop]
  | succ n ih =>
    intro cmd res
    cases res with
    | table df => simp [rectifyLoop]
    | err e =>
      simp only [rectifyLoop, List.length_cons]
      exact Nat.succ_le_succ (ih _ _)

/-- A successful result stops the loop immediately, with no correction. -/
theorem rectifyLoop_table (ex : String → ExecOut) (corr : String → String → String)
    (fuel : Nat) (cmd : String) (df : DataFrame) :
    rectifyLoop ex corr fuel cmd (.table df) = ((.table df, cmd), []) := by
  cases fuel <;> rfl

/-- The loop's answer is the execution outcome of the last executed command,
returned together with that very command. -/
theorem rectifyLoop_final (ex : String → ExecOut) (corr : String → String → String) :
    ∀ (fuel : Nat) (cmd : String),
      (rectifyLoop ex corr fuel cmd (ex cmd)).1 =
        (ex ((cmd :: (rectifyLoop ex corr fuel cmd (ex cmd)).2).getLast (List.cons_ne_nil _ _)),
         (cmd :: (rectifyLoop ex corr fuel cmd (ex cmd)).2).getLast (List.cons_ne_nil _ _)) := by
  intro fuel
  induction fuel with
  | zero => intro cmd; simp [rectifyLoop]
  | succ n ih =>
    intro cmd
    cases hc : ex cmd with
    | table df => rw [rectifyLoop_table]; simp [hc]
    | err e =>
      simp only [rectifyLoop]
      rw [List.getLast_cons (List.cons_ne_nil _ _)]
      exact ih (corr cmd e)

/-- Every executed command before the last one produced an error: the loop
stops at the first success. -/
theorem rectifyLoop_errs (ex : String → ExecOut) (corr : String → String → String) :
    ∀ (fuel : Nat) (cmd : String),
      ∀ c ∈ (cmd :: (rectifyLoop ex corr fuel cmd (ex cmd)).2).dropLast,
        ∃ e, ex c = .err e := by
  intro fuel
  induction fuel with
  | zero => intro cmd; simp [rectifyLoop]
  | succ n ih =>
    intro cmd
    cases hc : ex cmd with
    | table df => rw [rectifyLoop_table]; simp
    | err e =>
      simp only [rectifyLoop]
      intro c hcmem
      rw [List.dropLast_cons₂] at hcmem
      rcases List.mem_cons.mp hcmem with hceq | hcmem
      · exact ⟨e, by rw [hceq]; exact hc⟩
      · exact ih (corr cmd e) c hcmem

/-- C4: for every executor, rectifier and budget `n ≥ 1`, `run_sql` executes
the initial statement once and at most `n` corrected statements; the trace of
executed statements starts with the initial one; the returned pair is the
outcome of the last executed statement together with that exact statement;
every executed statement before the last failed (the loop stops at the first
success); and when the initial execution already succeeds, nothing else is
executed and its table is returned with the initial statement. -/
theorem rectification_loop_spec (ex : String → ExecOut) (corr : String → String → String)
    (attempts : Nat) (hattempts : 1 ≤ attempts) (command : String) :
    (run_sql_with_rectification ex corr attempts command).2.length ≤ attempts + 1 ∧
    (run_sql_with_rectification ex corr attempts command).2.head? = some command ∧
    (∃ hne : (run_sql_with_rectification ex corr attempts command).2 ≠ [],
      (run_sql_with_rectification ex corr attempts command).1 =
        (ex ((run_sql_with_rectification ex corr attempts command).2.getLast hne),
         (run_sql_with_rectification ex corr attempts command).2.getLast hne)) ∧
    (∀ c ∈ (run_sql_with_rectification ex corr attempts command).2.dropLast,
      ∃ e, ex c = .err e) ∧
    (∀ df, ex command = .table df →
      run_sql_with_rectification ex corr attempts command = ((.table df, command), [command])) := by
  have hpos : 0 < attempts := hattempts
  unfold run_sql_with_rectification
  simp only [if_pos hpos]
  refine ⟨?_, ?_, ?_, ?_, ?_⟩
  · simpa using Nat.succ_le_succ (rectifyLoop_len ex corr attempts command (ex command))
  · simp
  · exact ⟨List.cons_ne_nil _ _, rectifyLoop_final ex corr attempts command⟩
  · exact rectifyLoop_errs ex corr attempts command
  · intro df hdf
    rw [hdf, rectifyLoop_table]

/-- C4 witness: a syntax error on attempt 1, success on attempt 2, budget 3 —
the loop stops after the second execution and returns that result with the
corrected SQL. -/
theorem rectification_loop_spec_witness :
    (1 ≤ 3 ∧
      (∀ c ∈ (run_sql_with_rectification demoEx demoCorr 3 "SELEC * FROM SALES").2.dropLast,
        ∃ e, demoEx c = .err e)) ∧
    run_sql_with_rectification demoEx demoCorr 3 "SELEC * FROM SALES" =
      ((.table demoDF, "SELECT * FROM SALES"), ["SELEC * FROM SALES", "SELECT * FROM SALES"]) :=
  ⟨⟨by decide,
    (rectification_loop_spec demoEx demoCorr 3 (by decide) "SELEC * FROM SALES").2.2.2.1⟩,
   by decide⟩

/-- C9: the object-store adapter recreates the external tables at most once
per `run_sql` call; it does so exactly when the first execution fails with a
`TABLE_NOT_FOUND` error (never for other error classes); in that case the
first two executed statements are the original command twice (the single
retry re-runs the unmodified command); and when the retry against the
recreated tables succeeds, the call returns that result with the original
command after exactly those two executions and one recreation. -/
theorem athena_recreate_retry_spec {σ : Type} (ex : σ → String → ExecOut) (recreate : σ → σ)
    (corr : String → String → String) (attempts : Nat) (command : String) (s0 : σ) :
    (s3_run_sql ex recreate corr attempts command s0).2.1 ≤ 1 ∧
    ((s3_run_sql ex recreate corr attempts command s0).2.1 = 1 ↔
      hasTNF (ex s0 command) = true) ∧
    (hasTNF (ex s0 command) = true →
      (s3_run_sql ex recreate corr attempts command s0).2.2.take 2 = [command, command]) ∧
    (hasTNF (ex s0 command) = true →
      ∀ df, ex (recreate s0) command = .table df →
        s3_run_sql ex recreate corr attempts command s0 =
          ((.table df, command), 1, [command, command])) := by
  cases htnf : hasTNF (ex s0 command) with
  | true =>
    unfold s3_run_sql
    simp only [htnf, if_true]
    by_cases hp : 0 < attempts
    · simp only [if_pos hp]
      refine ⟨Nat.le_refl 1, by simp, by simp, ?_⟩
      intro _ df hdf
      rw [hdf, rectifyLoop_table]
      simp
    · simp only [if_neg hp]
      refine ⟨Nat.le_refl 1, by simp, by simp, ?_⟩
      intro _ df hdf
      rw [hdf]
  | false =>
    unfold s3_run_sql
    simp only [htnf, if_false]
    by_cases hp : 0 < attempts
    · simp only [if_pos hp]
      exact ⟨Nat.zero_le 1, by simp, by simp, by simp⟩
    · simp only [if_neg hp]
      exact ⟨Nat.zero_le 1, by simp, by simp, by simp⟩

/-- C9 witness: a `TABLE_NOT_FOUND` failure followed by a successful retry
against the recreated tables. -/
theorem athena_recreate_retry_spec_witness :
    hasTNF (demoAthenaEx false "SELECT * FROM SALES") = true ∧
    s3_run_sql demoAthenaEx (fun _ => true) demoCorr 1 "SELECT * FROM SALES" false =
      ((.table demoDF, "SELECT * FROM SALES"), 1, ["SELECT * FROM SALES", "SELECT * FROM SALES"]) :=
  ⟨by decide,
    (athena_recreate_retry_spec demoAthenaEx (fun _ => true) demoCorr 1
      "SELECT * FROM SALES" false).2.2.2 (by decide) demoDF (by decide)⟩

/-- The cache probe returns nothing exactly on an empty cache. -/
theorem top1_none_iff (sim : CacheEntry → ℚ) :
    ∀ cache : List CacheEntry, similarity_search_top1 sim cache = none ↔ cache = [] := by
  intro cache
  cases cache with
  | nil => simp [similarity_search_top1]
  | cons e rest =>
    simp only [similarity_search_top1]
    cases similarity_search_top1 sim rest with
    | none => simp
    | some p => rcases p with ⟨b, sb⟩; by_cases h : sb ≤ sim e <;> simp [h]

/-- The cache probe returns a stored entry of maximal similarity, paired with
that similarity. -/
theorem top1_some_spec (sim : CacheEntry → ℚ) :
    ∀ (cache : List CacheEntry) (e : CacheEntry) (s : ℚ),
      similarity_search_top1 sim cache = some (e, s) →
        e ∈ cache ∧ s = sim e ∧ ∀ e2 ∈ cache, sim e2 ≤ s := by
  intro cache
  induction cache with
  | nil => intro e s h; simp [similarity_search_top1] at h
  | cons a rest ih =>
    intro e s h
    simp only [similarity_search_top1] at h
    cases hr : similarity_search_top1 sim rest with
    | none =>
      rw [hr] at h
      have h2 : some (a, sim a) = some (e, s) := h
      obtain ⟨he, hs⟩ : a = e ∧ sim a = s := by simpa using h2
      have hrest : rest = [] := (top1_none_iff sim rest).mp hr
      subst he hs hrest
      simp
    | some p =>
      rcases p with ⟨b, sb⟩
      rw [hr] at h
      have h2 : (if sb ≤ sim a then some (a, sim a) else some (b, sb)) = some (e, s) := h
      obtain ⟨hb, hsb, hmax⟩ := ih b sb hr
      by_cases hle : sb ≤ sim a
      · rw [if_pos hle] at h2
        obtain ⟨he, hs⟩ : a = e ∧ sim a = s := by simpa using h2
        subst he hs
        refine ⟨List.mem_cons_self a rest, rfl, ?_⟩
        intro e2 he2
        rcases List.mem_cons.mp he2 with hm | hm
        · exact hm ▸ le_refl _
        · exact le_trans (hmax e2 hm) hle
      · rw [if_neg hle] at h2
        obtain ⟨he, hs⟩ : b = e ∧ sb = s := by simpa using h2
        subst he hs
        refine ⟨List.mem_cons_of_mem a hb, hsb, ?_⟩
        intro e2 he2
        rcases List.mem_cons.mp he2 with hm | hm
        · exact hm ▸ le_of_lt (lt_of_not_le hle)
        · exact hmax e2 hm

/-- C5: the semantic-cache lookup returns a stored SQL exactly when the single
nearest stored neighbour's similarity reaches the threshold; any returned SQL
belongs to a cached entry whose similarity is maximal in the cache and at
least the threshold (never below it); and a hit at threshold `t` is a hit at
every threshold `t2 ≤ t`, so raising the threshold cannot increase the hit
rate. -/
theorem semantic_cache_lookup_spec (sim : CacheEntry → ℚ) (t : ℚ) (cache : List CacheEntry) :
    ((get_cached_query sim t cache).isSome ↔
      ∃ e s, similarity_search_top1 sim cache = some (e, s) ∧ t ≤ s) ∧
    (∀ q, get_cached_query sim t cache = some q →
      ∃ e, e ∈ cache ∧ q = e.query ∧ t ≤ sim e ∧ ∀ e2 ∈ cache, sim e2 ≤ sim e) ∧
    (∀ t2, t2 ≤ t → (get_cached_query sim t cache).isSome →
      (get_cached_query sim t2 cache).isSome) := by
  have hform : ∀ u : ℚ, ∀ e s, similarity_search_top1 sim cache = some (e, s) →
      get_cached_query sim u cache = if u ≤ s then some e.query else none := by
    intro u e s h
    unfold get_cached_query
    rw [h]
  refine ⟨?_, ?_, ?_⟩
  · cases h : similarity_search_top1 sim cache with
    | none =>
      have hg : get_cached_query sim t cache = none := by
        unfold get_cached_query; rw [h]
      rw [hg]
      simp [h]
    | some p =>
      rcases p with ⟨e, s⟩
      rw [hform t e s h]
      by_cases hle : t ≤ s
      · rw [if_pos hle]
        simp only [Option.isSome_some, true_iff]
        exact ⟨e, s, rfl, hle⟩
      · rw [if_neg hle]
        simp only [Option.isSome_none, Bool.false_eq_true, false_iff]
        rintro ⟨e2, s2, h2, hle2⟩
        obtain ⟨he2, hs2⟩ : e = e2 ∧ s = s2 := by simpa using h2
        exact hle (hs2 ▸ hle2)
  · intro q hq
    cases h : similarity_search_top1 sim cache with
    | none =>
      have hg : get_cached_query sim t cache = none := by
        unfold get_cached_query; rw [h]
      rw [hg] at hq; cases hq
    | some p =>
      rcases p with ⟨e, s⟩
      rw [hform t e s h] at hq
      by_cases hle : t ≤ s
      · rw [if_pos hle] at hq
        obtain ⟨he, hs, hmax⟩ := top1_some_spec sim cache e s h
        injection hq with hq
        exact ⟨e, he, hq.symm, hs ▸ hle, fun e2 hm => hs ▸ hmax e2 hm⟩
      · rw [if_neg hle] at hq; cases hq
  · intro t2 ht2 hsome
    cases h : similarity_search_top1 sim cache with
    | none =>
      have hg : get_cached_query sim t cache = none := by
        unfold get_cached_query; rw [h]
      rw [hg] at hsome; simp at hsome
    | some p =>
      rcases p with ⟨e, s⟩
      rw [hform t e s h] at hsome
      rw [hform t2 e s h]
      by_cases hle : t ≤ s
      · rw [if_pos (le_trans ht2 hle)]; simp
      · rw [if_neg hle] at hsome; simp at hsome

/-- C5 witness: a cache hit at threshold 9/10 is still a hit at 1/2. -/
theorem semantic_cache_lookup_spec_witness :
    (mkRat 1 2 ≤ mkRat 9 10 ∧ (get_cached_query demoSim (mkRat 9 10) demoCache).isSome) ∧
    (get_cached_query demoSim (mkRat 1 2) demoCache).isSome :=
  have hhit : (get_cached_query demoSim (mkRat 9 10) demoCache).isSome := by decide
  ⟨⟨by decide, hhit⟩,
    (semantic_cache_lookup_spec demoSim (mkRat 9 10) demoCache).2.2 (mkRat 1 2)
      (by decide) hhit⟩

/-- The fuzzy matcher reports nothing exactly when there are no candidates. -/
theorem bestMatch_none_iff (scorer : List Char → List Char → Nat) (fv : List Char) :
    ∀ choices : List (List Char), bestMatch scorer fv choices = none ↔ choices = [] := by
  intro choices
  cases choices with
  | nil => simp [bestMatch]
  | cons c rest =>
    simp only [bestMatch]
    cases bestMatch scorer fv rest with
    | none => simp
    | some p =>
      rcases p with ⟨b, sb⟩
      by_cases h : sb ≤ scorer fv c <;> simp [h]

/-- The fuzzy matcher returns a candidate of maximal score, paired with that
score. -/
theorem bestMatch_spec (scorer : List Char → List Char → Nat) (fv : List Char) :
    ∀ (choices : List (List Char)) (b : List Char) (sb : Nat),
      bestMatch scorer fv choices = some (b, sb) →
        b ∈ choices ∧ sb = scorer fv b ∧ ∀ c ∈ choices, scorer fv c ≤ sb := by
  intro choices
  induction choices with
  | nil => intro b sb h; simp [bestMatch] at h
  | cons a rest ih =>
    intro b sb h
    simp only [bestMatch] at h
    cases hr : bestMatch scorer fv rest with
    | none =>
      rw [hr] at h
      have h2 : some (a, scorer fv a) = some (b, sb) := h
      obtain ⟨hb, hs⟩ : a = b ∧ scorer fv a = sb := by simpa using h2
      have hrest : rest = [] := (bestMatch_none_iff scorer fv rest).mp hr
      subst hrest
      subst hb
      refine ⟨List.mem_cons_self a [], hs.symm, ?_⟩
      intro c hc
      rcases List.mem_cons.mp hc with hm | hm
      · rw [hm]; exact le_of_eq hs
      · cases hm
    | some p =>
      rcases p with ⟨b0, sb0⟩
      rw [hr] at h
      have h2 : (if sb0 ≤ scorer fv a then some (a, scorer fv a) else some (b0, sb0)) =
          some (b, sb) := h
      obtain ⟨hb0, hsb0, hmax0⟩ := ih b0 sb0 hr
      by_cases hle : sb0 ≤ scorer fv a
      · rw [if_pos hle] at h2
        obtain ⟨hb, hs⟩ : a = b ∧ scorer fv a = sb := by simpa using h2
        subst hb
        refine ⟨List.mem_cons_self a rest, hs.symm, ?_⟩
        intro c hc
        rcases List.mem_cons.mp hc with hm | hm
        · exact hm ▸ le_of_eq hs
        · exact le_trans (hmax0 c hm) (hs ▸ hle)
      · rw [if_neg hle] at h2
        obtain ⟨hb, hs⟩ : b0 = b ∧ sb0 = sb := by simpa using h2
        subst hb hs
        refine ⟨List.mem_cons_of_mem a hb0, hsb0, ?_⟩
        intro c hc
        rcases List.mem_cons.mp hc with hm | hm
        · exact hm ▸ le_of_lt (lt_of_not_le hle)
        · exact hmax0 c hm

/-- `normalizeStep` without a fuzzy match is the identity. -/
theorem normalizeStep_none (scorer : List Char → List Char → Nat)
    (distinct : List Char → List Char → List (List Char))
    (st : NormState) (comp : TabComp)
    (h : bestMatch scorer comp.filterVal (distinct comp.table comp.col) = none) :
    normalizeStep scorer distinct st comp = st := by
  unfold normalizeStep
  rw [h]

/-- `normalizeStep` with a fuzzy match substitutes exactly when the score is
strictly above 80. -/
theorem normalizeStep_some (scorer : List Char → List Char → Nat)
    (distinct : List Char → List Char → List (List Char))
    (st : NormState) (comp : TabComp) (b : List Char) (sb : Nat)
    (h : bestMatch scorer comp.filterVal (distinct comp.table comp.col) = some (b, sb)) :
    normalizeStep scorer distinct st comp =
      if 80 < sb then
        ⟨st.filterVals ++ [comp.filterVal], st.topVals ++ [[b]], st.scores ++ [sb],
         replaceAll comp.filterVal (escape_sql_string b) st.sqlNew,
         st.valueReplacements ++ [replacedMsg comp.filterVal (escape_sql_string b)]⟩
      else st := by
  unfold normalizeStep
  rw [h]

/-- C7 (counterexample): a candidate whose token-set score is exactly 80 is
rejected — no substitution is performed, no score recorded, and the SQL stays
unchanged — refuting the claim that a score of exactly 80 is accepted. -/
theorem fuzzy_threshold_80_rejected :
    bestMatch demoScorer80 "store1".data ["Store1".data] = some ("Store1".data, 80) ∧
    normalizeStep demoScorer80 demoDistinct ⟨[], [], [], demoNormSql, []⟩ demoComp =
      ⟨[], [], [], demoNormSql, []⟩ ∧
    (normalize_values demoScorer80 demoDistinct [demoComp] demoNormSql).sqlNew = demoNormSql ∧
    (normalize_values demoScorer80 demoDistinct [demoComp] demoNormSql).scores = [] := by
  refine ⟨by decide, by decide, by decide, by decide⟩

/-- C7 (amended): for every extracted component, the per-component step of
`normalize_values` substitutes the literal only with the best token-set match
among the column's actual distinct values (a candidate of maximal score), and
a substitution happens exactly when that best score is strictly greater
than 80 — a best match scoring 80 or below (80 itself included) leaves the
component untouched. -/
theorem fuzzy_match_step_spec (scorer : List Char → List Char → Nat)
    (distinct : List Char → List Char → List (List Char))
    (st : NormState) (comp : TabComp) :
    (bestMatch scorer comp.filterVal (distinct comp.table comp.col) = none →
      normalizeStep scorer distinct st comp = st) ∧
    (∀ b sb, bestMatch scorer comp.filterVal (distinct comp.table comp.col) = some (b, sb) →
      (b ∈ distinct comp.table comp.col ∧ sb = scorer comp.filterVal b ∧
        ∀ c ∈ distinct comp.table comp.col, scorer comp.filterVal c ≤ sb) ∧
      (sb ≤ 80 → normalizeStep scorer distinct st comp = st) ∧
      (80 < sb → normalizeStep scorer distinct st comp =
        ⟨st.filterVals ++ [comp.filterVal], st.topVals ++ [[b]], st.scores ++ [sb],
         replaceAll comp.filterVal (escape_sql_string b) st.sqlNew,
         st.valueReplacements ++ [replacedMsg comp.filterVal (escape_sql_string b)]⟩)) := by
  constructor
  · intro h
    exact normalizeStep_none scorer distinct st comp h
  · intro b sb h
    refine ⟨bestMatch_spec scorer comp.filterVal _ b sb h, ?_, ?_⟩
    · intro hle
      rw [normalizeStep_some scorer distinct st comp b sb h, if_neg (by omega)]
    · intro hgt
      rw [normalizeStep_some scorer distinct st comp b sb h, if_pos hgt]

/-- C7 witness: with actual value `Store1` scoring 100 against literal
`store1`, the step substitutes the escaped best match into the SQL. -/
theorem fuzzy_match_step_spec_witness :
    bestMatch demoScorer100 "store1".data ["Store1".data] = some ("Store1".data, 100) ∧
    normalizeStep demoScorer100 demoDistinct ⟨[], [], [], demoNormSql, []⟩ demoComp =
      ⟨["store1".data], [["Store1".data]], [100],
       replaceAll "store1".data (escape_sql_string "Store1".data) demoNormSql,
       [replacedMsg "store1".data (escape_sql_string "Store1".data)]⟩ :=
  ⟨by decide,
    ((fuzzy_match_step_spec demoScorer100 demoDistinct ⟨[], [], [], demoNormSql, []⟩
      demoComp).2 "Store1".data 100 (by decide)).2.2 (by decide)⟩

/-- The accumulators of the `normalize_values` loop stay aligned: one score,
one reported top value and one replacement message per substitution. -/
theorem normalize_foldl_balanced (scorer : List Char → List Char → Nat)
    (distinct : List Char → List Char → List (List Char)) :
    ∀ (comps : List TabComp) (st : NormState),
      st.scores.length = st.topVals.length →
      st.scores.length = st.valueReplacements.length →
      ((comps.foldl (normalizeStep scorer distinct) st).scores.length =
        (comps.foldl (normalizeStep scorer distinct) st).topVals.length ∧
       (comps.foldl (normalizeStep scorer distinct) st).scores.length =
        (comps.foldl (normalizeStep scorer distinct) st).valueReplacements.length) := by
  intro comps
  induction comps with
  | nil => intro st h1 h2; exact ⟨h1, h2⟩
  | cons comp rest ih =>
    intro st h1 h2
    simp only [List.foldl_cons]
    apply ih
    · cases hm : bestMatch scorer comp.filterVal (distinct comp.table comp.col) with
      | none => rw [normalizeStep_none scorer distinct st comp hm]; exact h1
      | some p =>
        rcases p with ⟨b, sb⟩
        rw [normalizeStep_some scorer distinct st comp b sb hm]
        by_cases hgt : 80 < sb
        · rw [if_pos hgt]; simp [h1]
        · rw [if_neg hgt]; exact h1
    · cases hm : bestMatch scorer comp.filterVal (distinct comp.table comp.col) with
      | none => rw [normalizeStep_none scorer distinct st comp hm]; exact h2
      | some p =>
        rcases p with ⟨b, sb⟩
        rw [normalizeStep_some scorer distinct st comp b sb hm]
        by_cases hgt : 80 < sb
        · rw [if_pos hgt]; simp [h2]
        · rw [if_neg hgt]; exact h2

/-- `normalize_values` keeps scores and reported top values aligned, and
whenever at least one substitution was made it produces the numbered
replacement message. -/
theorem normalize_values_shape (scorer : List Char → List Char → Nat)
    (distinct : List Char → List Char → List (List Char))
    (tabComps : List TabComp) (sql : List Char) :
    (normalize_values scorer distinct tabComps sql).scores.length =
      (normalize_values scorer distinct tabComps sql).topVals.length ∧
    (0 < (normalize_values scorer distinct tabComps sql).scores.length →
      ∃ m, (normalize_values scorer distinct tabComps sql).replacementMessage = some m) := by
  obtain ⟨hb1, hb2⟩ :=
    normalize_foldl_balanced scorer distinct tabComps ⟨[], [], [], sql, []⟩ rfl rfl
  refine ⟨hb1, ?_⟩
  intro hpos
  have hpos2 : 0 < (tabComps.foldl (normalizeStep scorer distinct)
      ⟨[], [], [], sql, []⟩).scores.length := hpos
  have hne : (tabComps.foldl (normalizeStep scorer distinct)
      ⟨[], [], [], sql, []⟩).valueReplacements ≠ [] := by
    intro hnil
    rw [hnil] at hb2
    simp only [List.length_nil] at hb2
    omega
  refine ⟨joinReplacements (tabComps.foldl (normalizeStep scorer distinct)
      ⟨[], [], [], sql, []⟩).valueReplacements, ?_⟩
  show (if (tabComps.foldl (normalizeStep scorer distinct)
        ⟨[], [], [], sql, []⟩).valueReplacements = [] then none
      else some (joinReplacements (tabComps.foldl (normalizeStep scorer distinct)
        ⟨[], [], [], sql, []⟩).valueReplacements)) =
    some (joinReplacements (tabComps.foldl (normalizeStep scorer distinct)
      ⟨[], [], [], sql, []⟩).valueReplacements)
  rw [if_neg hne]

/-- C6 (counterexample): the original execution result is a one-row table
holding a single zero (which triggers normalisation); a substitution is
performed, the rewritten SQL still returns zero rows — and the returned
result is a fresh empty frame, not the original one-row result, refuting the
claim that the original `ExecutionResult` is returned unchanged. -/
theorem normalization_fallback_counterexample :
    normTrigger demoOrigResult = true ∧
    0 < (normalize_values demoScorer100 demoDistinct (demoExtract demoNormSql)
          demoNormSql).scores.length ∧
    (run_normalization_process demoScorer100 demoDistinct demoExtract demoEmptyReexec
        demoNormSql demoOrigResult).sql = demoNormSql ∧
    (run_normalization_process demoScorer100 demoDistinct demoExtract demoEmptyReexec
        demoNormSql demoOrigResult).result = emptyDF ∧
    (run_normalization_process demoScorer100 demoDistinct demoExtract demoEmptyReexec
        demoNormSql demoOrigResult).result ≠ demoOrigResult := by
  refine ⟨by decide, by decide, by decide, by decide, by decide⟩

/-- C6 (amended): whenever normalisation was triggered, at least one literal
substitution was performed and the rewritten SQL still returns zero rows on
re-execution, `run_normalization_process` returns the original SQL together
with an empty result (`pd.DataFrame()` — the original pre-normalisation
result itself is not restored), the suggestion naming the original and tried
values, and the replacement message enumerating the attempted substitutions;
it never claims success. -/
theorem normalization_fallback_spec (scorer : List Char → List Char → Nat)
    (distinct : List Char → List Char → List (List Char))
    (extractComps : List Char → List TabComp)
    (reexec : List Char → DataFrame × String)
    (sql : List Char) (result : DataFrame)
    (htrig : normTrigger result = true)
    (hscores : 0 < (normalize_values scorer distinct (extractComps sql) sql).scores.length)
    (hre : (reexec (normalize_values scorer distinct (extractComps sql) sql).sqlNew).1.rows.length = 0) :
    run_normalization_process scorer distinct extractComps reexec sql result =
      ⟨sql, emptyDF, "",
        noRecordsTriedMsg (normalize_values scorer distinct (extractComps sql) sql).filterVals
          (normalize_values scorer distinct (extractComps sql) sql).topVals,
        (normalize_values scorer distinct (extractComps sql) sql).replacementMessage⟩ ∧
    ∃ m, (normalize_values scorer distinct (extractComps sql) sql).replacementMessage = some m := by
  obtain ⟨hshape, hmsg⟩ := normalize_values_shape scorer distinct (extractComps sql) sql
  have hcomps : (extractComps sql).isEmpty = false := by
    cases hc : extractComps sql with
    | nil =>
      rw [hc] at hscores
      have : (normalize_values scorer distinct [] sql).scores.length = 0 := by
        unfold normalize_values
        simp
      omega
    | cons a rest => simp
  have htop : 0 < (normalize_values scorer distinct (extractComps sql) sql).topVals.length := by
    omega
  refine ⟨?_, hmsg hscores⟩
  unfold run_normalization_process
  rw [htrig]
  simp only [if_true, hcomps, Bool.false_eq_true, if_false, if_pos hscores]
  rw [if_neg (by omega : ¬ 0 < (reexec (normalize_values scorer distinct (extractComps sql) sql).sqlNew).1.rows.length)]
  rw [if_pos htop]

/-- C6 witness: the amended behaviour at the demonstration inputs. -/
theorem normalization_fallback_spec_witness :
    run_normalization_process demoScorer100 demoDistinct demoExtract demoEmptyReexec
        demoNormSql demoOrigResult =
      ⟨demoNormSql, emptyDF, "",
        noRecordsTriedMsg
          (normalize_values demoScorer100 demoDistinct (demoExtract demoNormSql)
            demoNormSql).filterVals
          (normalize_values demoScorer100 demoDistinct (demoExtract demoNormSql)
            demoNormSql).topVals,
        (normalize_values demoScorer100 demoDistinct (demoExtract demoNormSql)
          demoNormSql).replacementMessage⟩ ∧
    ∃ m, (normalize_values demoScorer100 demoDistinct (demoExtract demoNormSql)
        demoNormSql).replacementMessage = some m :=
  normalization_fallback_spec demoScorer100 demoDistinct demoExtract demoEmptyReexec
    demoNormSql demoOrigResult (by decide) (by decide) (by decide)

/-- C8: the value normaliser is a no-op outside its trigger — a result with
two or more rows, or exactly one row containing neither a null nor a zero,
is returned with its SQL completely unchanged and empty suggestion — and
when the trigger holds but no filter component can be extracted it returns
the original SQL and result together with the fixed no-filter suggestion.
The trigger's complement is exactly the two-or-more-rows or
clean-single-row condition. -/
theorem normalization_frame_spec (scorer : List Char → List Char → Nat)
    (distinct : List Char → List Char → List (List Char))
    (extractComps : List Char → List TabComp)
    (reexec : List Char → DataFrame × String)
    (sql : List Char) (result : DataFrame) :
    (normTrigger result = false →
      run_normalization_process scorer distinct extractComps reexec sql result =
        ⟨sql, result, "", "", some ""⟩) ∧
    (normTrigger result = true → extractComps sql = [] →
      run_normalization_process scorer distinct extractComps reexec sql result =
        ⟨sql, result, "", noFilterMsg, some ""⟩) ∧
    (normTrigger result = false ↔
      2 ≤ result.rows.length ∨
        (result.rows.length = 1 ∧ hasNullCell result = false ∧ hasZeroCell result = false)) := by
  refine ⟨?_, ?_, ?_⟩
  · intro htrig
    unfold run_normalization_process
    rw [htrig]
    simp
  · intro htrig hext
    unfold run_normalization_process
    rw [htrig, hext]
    simp
  · unfold normTrigger
    cases hnull : hasNullCell result <;> cases hzero : hasZeroCell result <;>
      simp [← List.length_eq_zero] <;> omega

/-- `str.upper` output never contains an ASCII lower-case letter. -/
theorem chUpper_not_lower (c : Char) :
    ¬(97 ≤ (chUpper c).toNat ∧ (chUpper c).toNat ≤ 122) := by
  unfold chUpper
  split
  · rename_i h
    obtain ⟨h1, h2⟩ := h
    set n := c.toNat with hn
    interval_cases n <;> decide
  · rename_i h
    exact h

/-- No ASCII lower-case letter occurs anywhere in an upper-cased string. -/
theorem upperL_no_lower (l : List Char) (c : Char) (hc : c ∈ upperL l) :
    ¬(97 ≤ c.toNat ∧ c.toNat ≤ 122) := by
  obtain ⟨a, _, ha⟩ := List.mem_map.mp hc
  exact ha ▸ chUpper_not_lower a

/-- C10 (counterexample): `SELECT 1` is a fixed point of `preprocess_sql`
(already upper-case, no bare `id` token), so the relational-server executor
sends exactly the caller's statement — refuting the claim that the statement
sent to the backend is never the caller's statement verbatim. -/
theorem preprocess_identity_counterexample :
    preprocess_sql "SELECT 1".data = "SELECT 1".data ∧
    (pg_excute rejectingBackend "SELECT 1".data).2 = ["SELECT 1".data] := by
  refine ⟨by decide, by decide⟩

/-- C10 (amended): the statement the relational-server and MPP-warehouse
executors send to the driver is always `preprocess_sql` of the caller's
statement — lower-casing, quoting of bare `id` tokens, then upper-casing —
which can coincide with the caller's statement when that statement is a fixed
point of the transformation.  Any literal containing an ASCII lower-case
letter never occurs in the sent statement, and when the `id`-quoting step
does not fire, the sent statement contains the case-normalised
(lower-then-upper-cased) image of every fragment of the input — in
particular the fully upper-cased image of each quoted literal. -/
theorem preprocess_sent_statement_spec (backend : Backend) (sql : List Char) :
    ((pg_excute backend sql).2 = [] ∨ (pg_excute backend sql).2 = [preprocess_sql sql]) ∧
    preprocess_sql sql = upperL (applyIdCases (lowerL sql)) ∧
    (∀ lit : List Char, (∃ c ∈ lit, 97 ≤ c.toNat ∧ c.toNat ≤ 122) →
      ¬ lit <:+: preprocess_sql sql) ∧
    (applyIdCases (lowerL sql) = lowerL sql →
      ∀ lit : List Char, lit <:+: sql → upperL (lowerL lit) <:+: preprocess_sql sql) := by
  refine ⟨?_, rfl, ?_, ?_⟩
  · unfold pg_excute
    by_cases hp : proceed_with_sql (preprocess_sql sql)
    · rw [if_pos hp]
      cases backend (preprocess_sql sql) <;> simp
    · rw [if_neg hp]
      simp
  · rintro lit ⟨c, hc, hlow⟩ hinf
    have hmem : c ∈ preprocess_sql sql := hinf.subset hc
    exact upperL_no_lower (applyIdCases (lowerL sql)) c hmem hlow
  · intro hfix lit hinf
    have h1 : lowerL lit <:+: lowerL sql := hinf.map chLower
    have h2 : upperL (lowerL lit) <:+: upperL (lowerL sql) := h1.map chUpper
    unfold preprocess_sql
    rw [hfix]
    exact h2

/-- C10 witness: for `SELECT * FROM SALES WHERE STORE = 'Store1'` the
executed statement does not contain the original literal `'Store1'` but does
contain its upper-cased image `'STORE1'`. -/
theorem preprocess_sent_statement_spec_witness :
    (¬ "'Store1'".data <:+:
        preprocess_sql "SELECT * FROM SALES WHERE STORE = 'Store1'".data) ∧
    "'STORE1'".data <:+:
      preprocess_sql "SELECT * FROM SALES WHERE STORE = 'Store1'".data := by
  have h := preprocess_sent_statement_spec rejectingBackend
    "SELECT * FROM SALES WHERE STORE = 'Store1'".data
  constructor
  · exact h.2.2.1 "'Store1'".data (by decide)
  · have h4 := h.2.2.2 (by decide) "'Store1'".data (by decide)
    have heq : upperL (lowerL "'Store1'".data) = "'STORE1'".data := by decide
    rw [heq] at h4
    exact h4

/-- C8 witness: a clean two-row result passes through untouched with no
suggestion, and a triggering zero-cell result with no extractable filter
components returns unchanged with the fixed no-filter suggestion. -/
theorem normalization_frame_spec_witness :
    run_normalization_process demoScorer100 demoDistinct demoExtract demoEmptyReexec
        demoNormSql ⟨["a"], [[Cell.intv 1], [Cell.intv 2]]⟩ =
      ⟨demoNormSql, ⟨["a"], [[Cell.intv 1], [Cell.intv 2]]⟩, "", "", some ""⟩ ∧
    run_normalization_process demoScorer100 demoDistinct (fun _ => []) demoEmptyReexec
        demoNormSql demoOrigResult =
      ⟨demoNormSql, demoOrigResult, "", noFilterMsg, some ""⟩ :=
  ⟨(normalization_frame_spec demoScorer100 demoDistinct demoExtract demoEmptyReexec
      demoNormSql ⟨["a"], [[Cell.intv 1], [Cell.intv 2]]⟩).1 (by decide),
   (normalization_frame_spec demoScorer100 demoDistinct (fun _ => []) demoEmptyReexec
      demoNormSql demoOrigResult).2.1 (by decide) rfl⟩
